import Mathlib

/-!
# Verification of the DeepTraffic-GradCAM backend (`backend/main.py`)

Shallow embedding of the single-frame inference request pipeline:
the FastAPI endpoints `health_check`, `detect` and `explain`, the
module-level model handles (`model`, `explain_model`, `cam_extractor`)
and the `lifespan` startup/shutdown logic.

Modelling conventions:
* Python floats are embedded as `ℚ`; `round(x, 4)` becomes `round4`.
* The external libraries (cv2, base64, ultralytics, pytorch-grad-cam)
  are embedded by their interface contracts: image buffers carry their
  pixel dimensions, decoding is a fallible function supplied by a
  `Codec` environment, and the detector/tracker is a function field of
  the `YOLOModel` handle.
* The `ultralytics` `boxes.id` tensor is `None` for a whole batch when
  the tracker produced no ids; we embed the per-box view of this as an
  `Option ℤ` field on each raw detection (a box has an id or it does
  not), which is the granularity the response serialization uses.
* FastAPI turns `raise HTTPException(code, detail)` into an error
  response; endpoints are embedded as total functions into
  `Except HttpError α`.  Wall-clock timing (`inference_time_ms`) is not
  modelled.
-/

/-- A raw pixel buffer: `cv2` images are arrays of shape
`(height, width, channels)`; only the dimensions are tracked. -/
structure Image where
  width : Nat
  height : Nat
  channels : Nat
deriving DecidableEq, Repr

/-- A byte buffer (the result of `base64.b64decode` /
`np.frombuffer(..., dtype=np.uint8)`). -/
abbrev ByteBuf := List Nat

/-- External image codec collaborators used by both endpoints:
`base64.b64decode` (raises on malformed input, embedded as `none`) and
`cv2.imdecode` (returns `None` for bytes that are not a valid
compressed image, including an empty buffer). -/
structure Codec where
  b64decode : String → Option ByteBuf
  imdecode : ByteBuf → Option Image

/-- Lines 168-173 of `main.py`: base64-decode the `frame` field, then
`cv2.imdecode`; a decode exception or a `None` frame both end in the
`except` branch (embedded as `none`). -/
def decodeFrame (codec : Codec) (s : String) : Option Image :=
  match codec.b64decode s with
  | none => none
  | some bytes => codec.imdecode bytes

/-- One raw detection of the batch `results[0].boxes`: the absolute
`xyxy` box, the confidence, the class id (`int(boxes.cls[i])`) and the
optional BoT-SORT track id (`boxes.id`). -/
structure RawDet where
  x1 : ℚ
  y1 : ℚ
  x2 : ℚ
  y2 : ℚ
  conf : ℚ
  cls : Nat
  id? : Option ℤ
deriving DecidableEq, Repr

/-- The loaded YOLO handle (global `model`): its class-id→name table
`model.names` and the `model.track(frame, conf, iou, imgsz)` call.
`none` embeds `results[0].boxes is None`. -/
structure YOLOModel where
  names : List (Nat × String)
  track : Image → ℚ → ℚ → Nat → Option (List RawDet)

/-- The loaded MobileNetV3 classifier (global `explain_model`); the
orchestration only holds a reference to it. -/
structure ExplainModel where
  tag : Nat
deriving DecidableEq, Repr

/-- The GradCAM extractor (global `cam_extractor`): called on the
preprocessed input tensor, returns a grayscale saliency map. -/
structure CamExtractor where
  extract : Image → Image

/-- The process-wide global model references of `main.py` lines 38-40:
`model`, `explain_model`, `cam_extractor`, each `None` until loaded. -/
structure ServerState where
  model? : Option YOLOModel
  explainModel? : Option ExplainModel
  camExtractor? : Option CamExtractor

/-- `lifespan` startup (lines 49-62): all three globals are assigned
loaded handles. -/
def startup (m : YOLOModel) (em : ExplainModel) (c : CamExtractor) : ServerState :=
  { model? := some m, explainModel? := some em, camExtractor? := some c }

/-- `lifespan` shutdown (line 65, after `yield`): only `model = None`
is executed; `explain_model` and `cam_extractor` are left untouched. -/
def shutdown (st : ServerState) : ServerState :=
  { st with model? := none }

/-- `raise HTTPException(status, detail)`. -/
structure HttpError where
  status : Nat
  detail : String
deriving DecidableEq, Repr

/-- Python `round(x, 4)`: round to the nearest multiple of `1/10000`. -/
def round4 (q : ℚ) : ℚ :=
  (round (q * 10000) : ℤ) / 10000

/-- Python `dict.get(k, 0)` on the `count_by_class` dictionary. -/
def dictGet : List (String × Nat) → String → Nat
  | [], _ => 0
  | p :: rest, k => if p.1 = k then p.2 else dictGet rest k

/-- Python `d[k] = v` on a dictionary embedded as an association list
with unique keys kept in insertion order. -/
def dictSet : List (String × Nat) → String → Nat → List (String × Nat)
  | [], k, v => [(k, v)]
  | p :: rest, k, v => if p.1 = k then (k, v) :: rest else p :: dictSet rest k v

/-- Line 227: `count_by_class[cls_name] = count_by_class.get(cls_name, 0) + 1`. -/
def dictIncr (d : List (String × Nat)) (k : String) : List (String × Nat) :=
  dictSet d k (dictGet d k + 1)

/-- `model.names.get(cls_id)`: lookup in the class-id→name table. -/
def namesGet : List (Nat × String) → Nat → Option String
  | [], _ => none
  | p :: rest, k => if p.1 = k then some p.2 else namesGet rest k

/-- Line 211: `model.names.get(cls_id, f"class_{cls_id}")`. -/
def resolveName (names : List (Nat × String)) (clsId : Nat) : String :=
  match namesGet names clsId with
  | some n => n
  | none => "class_" ++ toString clsId

/-- Normalized bounding box (`BBox` pydantic model). -/
structure BBox where
  x : ℚ
  y : ℚ
  width : ℚ
  height : ℚ
deriving DecidableEq, Repr

/-- Serialized detection (`DetectionResult` pydantic model). -/
structure DetectionResult where
  track_id : ℤ
  class_name : String
  class_id : Nat
  confidence : ℚ
  bbox : BBox
deriving DecidableEq, Repr

/-- `DetectResponse` pydantic model (the second, effective, definition
in `main.py`, which carries the `tracker` field). -/
structure DetectResponse where
  detections : List DetectionResult
  vehicle_count : Nat
  count_by_class : List (String × Nat)
  frame_width : Nat
  frame_height : Nat
  tracker : String
deriving DecidableEq, Repr

/-- Loop body of lines 198-225: normalize the `xyxy` box by the frame
dimensions, round to 4 decimal places, resolve class name, and fall
back to the `-1` track-id sentinel. -/
def serializeDet (names : List (Nat × String)) (w h : Nat) (d : RawDet) : DetectionResult :=
  let cx := ((d.x1 + d.x2) / 2) / (w : ℚ)
  let cy := ((d.y1 + d.y2) / 2) / (h : ℚ)
  let bw := (d.x2 - d.x1) / (w : ℚ)
  let bh := (d.y2 - d.y1) / (h : ℚ)
  { track_id := match d.id? with | none => -1 | some t => t
    class_name := resolveName names d.cls
    class_id := d.cls
    confidence := round4 d.conf
    bbox := { x := round4 cx, y := round4 cy, width := round4 bw, height := round4 bh } }

/-- The `for i in range(len(boxes))` loop of lines 198-227, threading
the `detections` list (appended at the tail) and the `count_by_class`
dictionary. -/
def parseLoop (names : List (Nat × String)) (w h : Nat) :
    List RawDet → List DetectionResult → List (String × Nat) →
    List DetectionResult × List (String × Nat)
  | [], dets, cbc => (dets, cbc)
  | d :: rest, dets, cbc =>
    let det := serializeDet names w h d
    parseLoop names w h rest (dets ++ [det]) (dictIncr cbc det.class_name)

/-- Lines 193-227: `detections`/`count_by_class` start empty and the
loop only runs when `results[0].boxes is not None`. -/
def parseResults (names : List (Nat × String)) (w h : Nat)
    (tr : Option (List RawDet)) : List DetectionResult × List (String × Nat) :=
  match tr with
  | none => ([], [])
  | some boxes => parseLoop names w h boxes [] []

/-- `POST /api/detect` (lines 161-236): 503 when the model global is
`None`, 400 when the frame fails to decode, otherwise track, parse and
answer with the full response record. -/
def detect (st : ServerState) (codec : Codec) (frame_b64 : String)
    (conf iou : ℚ) (imgsz : Nat) : Except HttpError DetectResponse :=
  match st.model? with
  | none => Except.error { status := 503, detail := "Model not loaded" }
  | some m =>
    match decodeFrame codec frame_b64 with
    | none => Except.error { status := 400, detail := "Invalid frame data" }
    | some frame =>
      let w := frame.width
      let h := frame.height
      let parsed := parseResults m.names w h (m.track frame conf iou imgsz)
      Except.ok
        { detections := parsed.1
          vehicle_count := parsed.1.length
          count_by_class := parsed.2
          frame_width := w
          frame_height := h
          tracker := "botsort" }

/-- Health-check response record (lines 138-143). -/
structure HealthResponse where
  status : String
  model_loaded : Bool
  model_path : String
  tracker : String
deriving DecidableEq, Repr

/-- `GET /api/health` (lines 136-143): unconditional success. -/
def health (st : ServerState) : HealthResponse :=
  { status := "ok"
    model_loaded := st.model?.isSome
    model_path := "best.pt"
    tracker := "botsort" }

/-- `cv2.cvtColor(..., COLOR_BGR2RGB / COLOR_RGB2BGR)`: reorders the
channels, leaving the buffer dimensions unchanged. -/
def cvtColor (img : Image) : Image := img

/-- `np.float32(frame) / 255`: pixel value normalization, dimensions
unchanged. -/
def toFloat01 (img : Image) : Image := img

/-- `cv2.resize(img, (w, h))`: always yields a buffer of exactly the
requested width and height. -/
def cvResize (img : Image) (w h : Nat) : Image :=
  { width := w, height := h, channels := img.channels }

/-- `show_cam_on_image(img, mask, use_rgb=True)`: blends a saliency
mask over the image, producing a 3-channel visualization with the
image's dimensions (the library requires `mask` and `img` to share
their spatial shape, which the call site guarantees by resizing). -/
def showCamOnImage (img mask : Image) : Image :=
  { width := img.width, height := img.height, channels := 3 }

/-- A compressed (JPEG) image byte buffer, base64-encoded; a JPEG
stream stores the pixel dimensions of the encoded image. -/
structure EncodedImage where
  width : Nat
  height : Nat
deriving DecidableEq, Repr

/-- `cv2.imencode(".jpg", img)` followed by `base64.b64encode`. -/
def imencodeJpg (img : Image) : EncodedImage :=
  { width := img.width, height := img.height }

/-- Decoding a JPEG stream produced by `imencodeJpg` yields a 3-channel
image of the stored dimensions (cv2 round-trip contract). -/
def imdecodeJpg (e : EncodedImage) : Option Image :=
  some { width := e.width, height := e.height, channels := 3 }

/-- `ExplainResponse` pydantic model. -/
structure ExplainResponse where
  heatmap : EncodedImage
deriving DecidableEq, Repr

/-- Lines 267-270: BGR→RGB, scale to `[0,1]` floats, resize to the
fixed 224×224 MobileNet input resolution. -/
def mobilenetInput (frame : Image) : Image :=
  cvResize (toFloat01 (cvtColor frame)) 224 224

/-- `POST /api/explain` (lines 247-305): 503 when `cam_extractor` is
`None` (the YOLO `model` global is not consulted), 400 when the frame
fails to decode; otherwise compute the 224×224 Grad-CAM map, resize it
back to the frame's dimensions, blend, and encode as base64 JPEG. -/
def explain (st : ServerState) (codec : Codec) (frame_b64 : String) :
    Except HttpError ExplainResponse :=
  match st.camExtractor? with
  | none => Except.error { status := 503, detail := "Explainability model not loaded" }
  | some cam =>
    match decodeFrame codec frame_b64 with
    | none => Except.error { status := 400, detail := "Invalid frame" }
    | some frame =>
      let rgbFloat := toFloat01 (cvtColor frame)
      let inputTensor := cvResize rgbFloat 224 224
      let grayscaleCam := cam.extract inputTensor
      let camResized := cvResize grayscaleCam frame.width frame.height
      let visualization := showCamOnImage rgbFloat camResized
      let visBgr := cvtColor visualization
      Except.ok { heatmap := imencodeJpg visBgr }

/-- Sum of the values of a `count_by_class` dictionary
(`sum(count_by_class.values())`). -/
def sumVals (d : List (String × Nat)) : Nat :=
  (d.map Prod.snd).sum

/-! ## Helper lemmas about the parsing loop and rounding -/

theorem dictIncr_sumVals (d : List (String × Nat)) (k : String) :
    sumVals (dictIncr d k) = sumVals d + 1 := by
  induction d with
  | nil => simp [dictIncr, dictSet, dictGet, sumVals]
  | cons p rest ih =>
    by_cases h : p.1 = k
    · simp [dictIncr, dictSet, dictGet, h, sumVals]
      omega
    · simp only [dictIncr, dictSet, dictGet, if_neg h] at ih ⊢
      simp only [sumVals, List.map_cons, List.sum_cons] at ih ⊢
      omega

theorem parseLoop_fst (names : List (Nat × String)) (w h : Nat) (raw : List RawDet) :
    ∀ dets cbc, (parseLoop names w h raw dets cbc).1 =
      dets ++ raw.map (serializeDet names w h) := by
  induction raw with
  | nil => intro dets cbc; simp [parseLoop]
  | cons d rest ih =>
    intro dets cbc
    simp [parseLoop, ih]

theorem parseLoop_sumVals (names : List (Nat × String)) (w h : Nat) (raw : List RawDet) :
    ∀ dets cbc, sumVals (parseLoop names w h raw dets cbc).2 =
      sumVals cbc + raw.length := by
  induction raw with
  | nil => intro dets cbc; simp [parseLoop]
  | cons d rest ih =>
    intro dets cbc
    simp [parseLoop, ih, dictIncr_sumVals]
    omega

theorem parseResults_fst (names : List (Nat × String)) (w h : Nat)
    (tr : Option (List RawDet)) :
    (parseResults names w h tr).1 =
      (tr.getD []).map (serializeDet names w h) := by
  cases tr with
  | none => simp [parseResults]
  | some boxes => simp [parseResults, parseLoop_fst]

theorem parseResults_inv (names : List (Nat × String)) (w h : Nat)
    (tr : Option (List RawDet)) :
    sumVals (parseResults names w h tr).2 = (parseResults names w h tr).1.length := by
  cases tr with
  | none => simp [parseResults, sumVals]
  | some boxes =>
    simp only [parseResults]
    rw [parseLoop_sumVals names w h boxes [] [], parseLoop_fst names w h boxes [] []]
    simp [sumVals]

/-- When the model is loaded and the frame decodes, `detect` answers
with exactly the record built from the parsed tracking results. -/
theorem detect_ok_inv (st : ServerState) (codec : Codec) (fb : String)
    (conf iou : ℚ) (imgsz : Nat) (m : YOLOModel) (frame : Image)
    (hm : st.model? = some m) (hf : decodeFrame codec fb = some frame) :
    detect st codec fb conf iou imgsz = Except.ok
      { detections := (parseResults m.names frame.width frame.height
          (m.track frame conf iou imgsz)).1
        vehicle_count := (parseResults m.names frame.width frame.height
          (m.track frame conf iou imgsz)).1.length
        count_by_class := (parseResults m.names frame.width frame.height
          (m.track frame conf iou imgsz)).2
        frame_width := frame.width
        frame_height := frame.height
        tracker := "botsort" } := by
  unfold detect
  rw [hm, hf]

/-- When the extractor is loaded and the frame decodes, `explain`
answers with exactly the encoded blended visualization. -/
theorem explain_ok_inv (st : ServerState) (codec : Codec) (fb : String)
    (c : CamExtractor) (frame : Image)
    (hc : st.camExtractor? = some c) (hf : decodeFrame codec fb = some frame) :
    explain st codec fb = Except.ok
      { heatmap := imencodeJpg (cvtColor (showCamOnImage (toFloat01 (cvtColor frame))
          (cvResize (c.extract (cvResize (toFloat01 (cvtColor frame)) 224 224))
            frame.width frame.height))) } := by
  unfold explain
  rw [hc, hf]

theorem round4_nonneg {q : ℚ} (hq : 0 ≤ q) : 0 ≤ round4 q := by
  have hlo : (0 : ℤ) ≤ round (q * 10000) := by
    rw [round_eq]
    have h0 : (0 : ℤ) = ⌊(0 : ℚ) + 1 / 2⌋ := by norm_num
    rw [h0]
    exact Int.floor_mono (by linarith)
  unfold round4
  exact div_nonneg (by exact_mod_cast hlo) (by norm_num)

theorem round4_le_one {q : ℚ} (hq : q ≤ 1) : round4 q ≤ 1 := by
  have hhi : round (q * 10000) ≤ 10000 := by
    rw [round_eq]
    have h1 : (10000 : ℤ) = ⌊(10000 : ℚ) + 1 / 2⌋ := by norm_num
    rw [h1]
    exact Int.floor_mono (by linarith)
  unfold round4
  rw [div_le_one (by norm_num)]
  exact_mod_cast hhi

theorem round4_den (q : ℚ) : ∃ k : ℤ, round4 q = (k : ℚ) / 10000 :=
  ⟨round (q * 10000), rfl⟩

theorem except_error_or_ok {α β : Type} (x : Except α β) :
    Xor' (∃ e, x = Except.error e) (∃ r, x = Except.ok r) := by
  cases x with
  | error e =>
    exact Or.inl ⟨⟨e, rfl⟩, by rintro ⟨r, hr⟩; cases hr⟩
  | ok r =>
    exact Or.inr ⟨⟨r, rfl⟩, by rintro ⟨e, he⟩; cases he⟩

/-! ## Sample fixtures used by the witness theorems -/

/-- A sample decoded 100×80 frame. -/
def frameS : Image := { width := 100, height := 80, channels := 3 }

/-- A sample codec: the payload `"good"` decodes to `frameS`; every
other payload fails somewhere in the decode chain. -/
def codecS : Codec :=
  { b64decode := fun s => if s = "good" then some [1] else none
    imdecode := fun b => if b = [1] then some frameS else none }

/-- Sample raw detection with a track id and a known class. -/
def rawDet0 : RawDet :=
  { x1 := 10, y1 := 8, x2 := 30, y2 := 40, conf := 9 / 10, cls := 0, id? := some 5 }

/-- Sample raw detection without a track id and with an unknown class. -/
def rawDet1 : RawDet :=
  { x1 := 50, y1 := 40, x2 := 90, y2 := 72, conf := 4 / 5, cls := 7, id? := none }

def rawS : List RawDet := [rawDet0, rawDet1]

/-- Sample loaded detector returning `rawS` on every frame. -/
def yoloS : YOLOModel :=
  { names := [(0, "car"), (1, "truck")]
    track := fun _ _ _ _ => some rawS }

def camS : CamExtractor :=
  { extract := fun img => { width := img.width, height := img.height, channels := 1 } }

/-- Fully loaded server state. -/
def stS : ServerState :=
  { model? := some yoloS, explainModel? := some { tag := 0 }, camExtractor? := some camS }

/-- The response `detect` produces from `stS` on the `"good"` payload. -/
def respS : DetectResponse :=
  { detections :=
      [ { track_id := 5, class_name := "car", class_id := 0, confidence := 9 / 10
          bbox := { x := 1 / 5, y := 3 / 10, width := 1 / 5, height := 2 / 5 } }
      , { track_id := -1, class_name := "class_7", class_id := 7, confidence := 4 / 5
          bbox := { x := 7 / 10, y := 7 / 10, width := 2 / 5, height := 2 / 5 } } ]
    vehicle_count := 2
    count_by_class := [("car", 1), ("class_7", 1)]
    frame_width := 100
    frame_height := 80
    tracker := "botsort" }

theorem detect_stS_eval : detect stS codecS "good" (2 / 5) (1 / 2) 640 = Except.ok respS := by
  norm_num [detect, decodeFrame, codecS, stS, yoloS, rawS, rawDet0, rawDet1, frameS,
    parseResults, parseLoop, serializeDet, dictIncr, dictSet, dictGet, resolveName,
    namesGet, round4, round_eq, respS]
  decide

/-- Sample loaded detector that reports no detections. -/
def yoloE : YOLOModel :=
  { names := [(0, "car")], track := fun _ _ _ _ => some [] }

def stE : ServerState :=
  { model? := some yoloE, explainModel? := some { tag := 0 }, camExtractor? := some camS }

/-- Unloaded server state: all three globals are `None`. -/
def stU : ServerState :=
  { model? := none, explainModel? := none, camExtractor? := none }

/-! ## Claims -/

/-- C1: for every `DetectionBatch` produced by a successful `/api/detect`
call, the sum of the values of `count_by_class` equals `vehicle_count`,
and `vehicle_count` equals the length of the `detections` list. -/
theorem detect_count_consistency (st : ServerState) (codec : Codec) (fb : String)
    (conf iou : ℚ) (imgsz : Nat) (resp : DetectResponse)
    (hr : detect st codec fb conf iou imgsz = Except.ok resp) :
    sumVals resp.count_by_class = resp.vehicle_count ∧
    resp.vehicle_count = resp.detections.length := by
  cases hm : st.model? with
  | none =>
    unfold detect at hr
    rw [hm] at hr
    exact Except.noConfusion hr
  | some m =>
    cases hf : decodeFrame codec fb with
    | none =>
      unfold detect at hr
      rw [hm, hf] at hr
      exact Except.noConfusion hr
    | some frame =>
      rw [detect_ok_inv st codec fb conf iou imgsz m frame hm hf] at hr
      injection hr with h
      subst h
      exact ⟨parseResults_inv _ _ _ _, rfl⟩

/-- C1 witness: the count invariant on a concrete two-detection run. -/
theorem detect_count_consistency_witness :
    sumVals respS.count_by_class = respS.vehicle_count ∧
    respS.vehicle_count = respS.detections.length :=
  detect_count_consistency stS codecS "good" (2 / 5) (1 / 2) 640 respS detect_stS_eval

/-- C2: the i-th emitted bbox is exactly the raw xyxy box of the i-th
raw detection converted to normalized center/size coordinates, each
value divided by the frame dimension and rounded to 4 decimal places. -/
theorem detect_bbox_formula (st : ServerState) (codec : Codec) (fb : String)
    (conf iou : ℚ) (imgsz : Nat) (m : YOLOModel) (frame : Image)
    (raw : List RawDet) (d : RawDet) (i : Nat) (resp : DetectResponse)
    (hm : st.model? = some m) (hf : decodeFrame codec fb = some frame)
    (ht : m.track frame conf iou imgsz = some raw) (hd : raw[i]? = some d)
    (hr : detect st codec fb conf iou imgsz = Except.ok resp) :
    (resp.detections[i]?).map DetectionResult.bbox = some
      { x := round4 (((d.x1 + d.x2) / 2) / (frame.width : ℚ))
        y := round4 (((d.y1 + d.y2) / 2) / (frame.height : ℚ))
        width := round4 ((d.x2 - d.x1) / (frame.width : ℚ))
        height := round4 ((d.y2 - d.y1) / (frame.height : ℚ)) } := by
  rw [detect_ok_inv st codec fb conf iou imgsz m frame hm hf] at hr
  injection hr with h
  subst h
  simp only [parseResults_fst, ht, Option.getD_some, List.getElem?_map, hd,
    Option.map_some']
  simp [serializeDet]

/-- C2 witness: the formula checked on the first concrete detection. -/
theorem detect_bbox_formula_witness :
    (respS.detections[0]?).map DetectionResult.bbox = some
      { x := round4 (((rawDet0.x1 + rawDet0.x2) / 2) / (frameS.width : ℚ))
        y := round4 (((rawDet0.y1 + rawDet0.y2) / 2) / (frameS.height : ℚ))
        width := round4 ((rawDet0.x2 - rawDet0.x1) / (frameS.width : ℚ))
        height := round4 ((rawDet0.y2 - rawDet0.y1) / (frameS.height : ℚ)) } :=
  detect_bbox_formula stS codecS "good" (2 / 5) (1 / 2) 640 yoloS frameS rawS rawDet0 0 respS
    rfl (by simp [decodeFrame, codecS]) rfl rfl detect_stS_eval

/-- A raw box lying inside the frame bounds. -/
def inFrame (w h : Nat) (d : RawDet) : Prop :=
  0 ≤ d.x1 ∧ d.x1 ≤ d.x2 ∧ d.x2 ≤ (w : ℚ) ∧
  0 ≤ d.y1 ∧ d.y1 ≤ d.y2 ∧ d.y2 ≤ (h : ℚ)

/-- A raw detection whose box sticks out of the 100×80 frame
(x2 = 300 > width): the code applies no clamping. -/
def rawBad : RawDet :=
  { x1 := 0, y1 := 0, x2 := 300, y2 := 50, conf := 1 / 2, cls := 0, id? := none }

def yoloBad : YOLOModel :=
  { names := [(0, "car")], track := fun _ _ _ _ => some [rawBad] }

def stBad : ServerState :=
  { model? := some yoloBad, explainModel? := some { tag := 0 }, camExtractor? := some camS }

/-- The response `detect` builds from `stBad`: the normalized width is
300/100 = 3 and the normalized center x is 3/2, both outside [0,1]. -/
def respBad : DetectResponse :=
  { detections :=
      [ { track_id := -1, class_name := "car", class_id := 0, confidence := 1 / 2
          bbox := { x := 3 / 2, y := 5 / 16, width := 3, height := 5 / 8 } } ]
    vehicle_count := 1
    count_by_class := [("car", 1)]
    frame_width := 100
    frame_height := 80
    tracker := "botsort" }

theorem detect_stBad_eval :
    detect stBad codecS "good" (2 / 5) (1 / 2) 640 = Except.ok respBad := by
  norm_num [detect, decodeFrame, codecS, stBad, yoloBad, rawBad, frameS,
    parseResults, parseLoop, serializeDet, dictIncr, dictSet, dictGet, resolveName,
    namesGet, round4, round_eq, respBad]

/-- C3 counterexample: a successful `/api/detect` response whose first
detection has `bbox.x = 3/2` and `bbox.width = 3`, both outside [0,1]:
the claim fails for detector boxes that exceed the frame bounds, since
`detect` applies no clamping. -/
theorem detect_bbox_out_of_range_cex :
    detect stBad codecS "good" (2 / 5) (1 / 2) 640 = Except.ok respBad ∧
    ¬ (∀ det ∈ respBad.detections,
        (0 ≤ det.bbox.x ∧ det.bbox.x ≤ 1) ∧ (0 ≤ det.bbox.y ∧ det.bbox.y ≤ 1) ∧
        (0 ≤ det.bbox.width ∧ det.bbox.width ≤ 1) ∧
        (0 ≤ det.bbox.height ∧ det.bbox.height ≤ 1)) := by
  refine ⟨detect_stBad_eval, ?_⟩
  intro hall
  have h := hall
    { track_id := -1, class_name := "car", class_id := 0, confidence := 1 / 2
      bbox := { x := 3 / 2, y := 5 / 16, width := 3, height := 5 / 8 } }
    (by simp [respBad])
  norm_num at h

/-- C3 (amended): in every successful `/api/detect` response, all four
bbox fields lie in [0,1] and are integer multiples of 1/10000, provided
every box the detector returned lies within the frame bounds (the code
does not clamp, so boxes outside the frame can escape [0,1]). -/
theorem detect_bbox_in_unit_interval (st : ServerState) (codec : Codec) (fb : String)
    (conf iou : ℚ) (imgsz : Nat) (m : YOLOModel) (frame : Image)
    (raw : List RawDet) (resp : DetectResponse)
    (hm : st.model? = some m) (hf : decodeFrame codec fb = some frame)
    (ht : m.track frame conf iou imgsz = some raw)
    (hw : 0 < frame.width) (hh : 0 < frame.height)
    (hbox : ∀ d ∈ raw, inFrame frame.width frame.height d)
    (hr : detect st codec fb conf iou imgsz = Except.ok resp) :
    ∀ det ∈ resp.detections,
      (0 ≤ det.bbox.x ∧ det.bbox.x ≤ 1) ∧
      (0 ≤ det.bbox.y ∧ det.bbox.y ≤ 1) ∧
      (0 ≤ det.bbox.width ∧ det.bbox.width ≤ 1) ∧
      (0 ≤ det.bbox.height ∧ det.bbox.height ≤ 1) ∧
      (∃ kx : ℤ, det.bbox.x = (kx : ℚ) / 10000) ∧
      (∃ ky : ℤ, det.bbox.y = (ky : ℚ) / 10000) ∧
      (∃ kw : ℤ, det.bbox.width = (kw : ℚ) / 10000) ∧
      (∃ kh : ℤ, det.bbox.height = (kh : ℚ) / 10000) := by
  rw [detect_ok_inv st codec fb conf iou imgsz m frame hm hf] at hr
  injection hr with hresp
  subst hresp
  intro det hdet
  simp only [parseResults_fst, ht, Option.getD_some, List.mem_map] at hdet
  obtain ⟨d, hd, rfl⟩ := hdet
  obtain ⟨h1, h2, h3, h4, h5, h6⟩ := hbox d hd
  have hwQ : (0 : ℚ) < (frame.width : ℚ) := by exact_mod_cast hw
  have hhQ : (0 : ℚ) < (frame.height : ℚ) := by exact_mod_cast hh
  simp only [serializeDet]
  refine ⟨⟨round4_nonneg ?_, round4_le_one ?_⟩, ⟨round4_nonneg ?_, round4_le_one ?_⟩,
    ⟨round4_nonneg ?_, round4_le_one ?_⟩, ⟨round4_nonneg ?_, round4_le_one ?_⟩,
    round4_den _, round4_den _, round4_den _, round4_den _⟩
  · exact div_nonneg (by linarith) hwQ.le
  · rw [div_le_one hwQ]; linarith
  · exact div_nonneg (by linarith) hhQ.le
  · rw [div_le_one hhQ]; linarith
  · exact div_nonneg (by linarith) hwQ.le
  · rw [div_le_one hwQ]; linarith
  · exact div_nonneg (by linarith) hhQ.le
  · rw [div_le_one hhQ]; linarith

/-- C3 (amended) witness: unit-interval bounds at the first detection
of the concrete run with in-frame boxes. -/
theorem detect_bbox_in_unit_interval_witness :
    (0 ≤ (1 / 5 : ℚ) ∧ (1 / 5 : ℚ) ≤ 1) ∧
    (0 ≤ (3 / 10 : ℚ) ∧ (3 / 10 : ℚ) ≤ 1) ∧
    (0 ≤ (1 / 5 : ℚ) ∧ (1 / 5 : ℚ) ≤ 1) ∧
    (0 ≤ (2 / 5 : ℚ) ∧ (2 / 5 : ℚ) ≤ 1) ∧
    (∃ kx : ℤ, (1 / 5 : ℚ) = (kx : ℚ) / 10000) ∧
    (∃ ky : ℤ, (3 / 10 : ℚ) = (ky : ℚ) / 10000) ∧
    (∃ kw : ℤ, (1 / 5 : ℚ) = (kw : ℚ) / 10000) ∧
    (∃ kh : ℤ, (2 / 5 : ℚ) = (kh : ℚ) / 10000) :=
  detect_bbox_in_unit_interval stS codecS "good" (2 / 5) (1 / 2) 640 yoloS frameS rawS respS
    rfl (by simp [decodeFrame, codecS]) rfl (by norm_num [frameS]) (by norm_num [frameS])
    (by
      intro d hd
      simp only [rawS, List.mem_cons, List.mem_singleton, List.not_mem_nil, or_false] at hd
      rcases hd with rfl | rfl <;> norm_num [inFrame, rawDet0, rawDet1, frameS])
    detect_stS_eval
    { track_id := 5, class_name := "car", class_id := 0, confidence := 9 / 10
      bbox := { x := 1 / 5, y := 3 / 10, width := 1 / 5, height := 2 / 5 } }
    (by simp [respS])

/-- C4: whenever the frame payload fails to decode (malformed base64 or
bytes that are not a valid compressed image), both loaded endpoints
answer a 400 client error with a human-readable message and produce no
detections or heatmap. -/
theorem decode_failure_client_error (st : ServerState) (codec : Codec) (fb : String)
    (conf iou : ℚ) (imgsz : Nat) (m : YOLOModel) (c : CamExtractor)
    (hm : st.model? = some m) (hc : st.camExtractor? = some c)
    (hbad : decodeFrame codec fb = none) :
    detect st codec fb conf iou imgsz =
      Except.error { status := 400, detail := "Invalid frame data" } ∧
    explain st codec fb = Except.error { status := 400, detail := "Invalid frame" } ∧
    (∀ r, detect st codec fb conf iou imgsz ≠ Except.ok r) ∧
    (∀ r, explain st codec fb ≠ Except.ok r) := by
  have h1 : detect st codec fb conf iou imgsz =
      Except.error { status := 400, detail := "Invalid frame data" } := by
    unfold detect
    rw [hm, hbad]
  have h2 : explain st codec fb =
      Except.error { status := 400, detail := "Invalid frame" } := by
    unfold explain
    rw [hc, hbad]
  refine ⟨h1, h2, ?_, ?_⟩
  · intro r hre
    rw [h1] at hre
    exact Except.noConfusion hre
  · intro r hre
    rw [h2] at hre
    exact Except.noConfusion hre

/-- C4 witness: a payload that fails base64 decoding gets the 400s. -/
theorem decode_failure_client_error_witness :
    detect stS codecS "bad" (2 / 5) (1 / 2) 640 =
      Except.error { status := 400, detail := "Invalid frame data" } ∧
    explain stS codecS "bad" = Except.error { status := 400, detail := "Invalid frame" } ∧
    (∀ r, detect stS codecS "bad" (2 / 5) (1 / 2) 640 ≠ Except.ok r) ∧
    (∀ r, explain stS codecS "bad" ≠ Except.ok r) :=
  decode_failure_client_error stS codecS "bad" (2 / 5) (1 / 2) 640 yoloS camS
    rfl rfl (by simp [decodeFrame, codecS])

/-- C5: when the globals are all `None` (models not loaded), `detect`
and `explain` answer a 503 service-unavailable error and `health` still
succeeds, reporting `model_loaded = false`. -/
theorem unloaded_service_unavailable (st : ServerState) (codec : Codec) (fb fb2 : String)
    (conf iou : ℚ) (imgsz : Nat)
    (hm : st.model? = none) (hc : st.camExtractor? = none) :
    detect st codec fb conf iou imgsz =
      Except.error { status := 503, detail := "Model not loaded" } ∧
    explain st codec fb2 =
      Except.error { status := 503, detail := "Explainability model not loaded" } ∧
    (health st).model_loaded = false ∧ (health st).status = "ok" := by
  refine ⟨?_, ?_, ?_, rfl⟩
  · unfold detect
    rw [hm]
  · unfold explain
    rw [hc]
  · simp [health, hm]

/-- C5 witness: the unloaded state answers 503 on both endpoints. -/
theorem unloaded_service_unavailable_witness :
    detect stU codecS "good" (2 / 5) (1 / 2) 640 =
      Except.error { status := 503, detail := "Model not loaded" } ∧
    explain stU codecS "good" =
      Except.error { status := 503, detail := "Explainability model not loaded" } ∧
    (health stU).model_loaded = false ∧ (health stU).status = "ok" :=
  unloaded_service_unavailable stU codecS "good" "good" (2 / 5) (1 / 2) 640 rfl rfl

def yoloC6 : YOLOModel := { names := [], track := fun _ _ _ _ => none }

def camC6 : CamExtractor := { extract := fun img => img }

/-- A concrete fully loaded state, as `lifespan` startup leaves it. -/
def stC6 : ServerState := startup yoloC6 { tag := 1 } camC6

/-- C6 counterexample: after shutdown of a loaded state, the detector
handle is `None` but the explainability model and the CAM extractor are
still loaded, so the handle is not replaced wholesale with an
empty/null state. -/
theorem shutdown_not_wholesale_cex :
    (shutdown stC6).model? = none ∧
    (shutdown stC6).explainModel? = some { tag := 1 } ∧
    (shutdown stC6).camExtractor? = some camC6 ∧
    ¬ ((shutdown stC6).explainModel? = none ∧ (shutdown stC6).camExtractor? = none) := by
  refine ⟨rfl, rfl, rfl, ?_⟩
  intro hnull
  have h := hnull.1
  simp [shutdown, stC6, startup] at h

/-- C6 (amended): the globals are assigned only by startup and
shutdown; shutdown clears only the detector handle, leaving the
explainability model and the CAM extractor loaded. -/
theorem shutdown_clears_only_detector (m : YOLOModel) (em : ExplainModel) (c : CamExtractor) :
    shutdown (startup m em c) =
      { model? := none, explainModel? := some em, camExtractor? := some c } := rfl

/-- C7: for every successfully decoded frame, the explain heatmap is a
decodable compressed image whose pixel dimensions equal the frame's:
the saliency map is computed at the fixed 224×224 model resolution and
resized back up to the frame's width and height before blending and
encoding. -/
theorem explain_heatmap_dims (st : ServerState) (codec : Codec) (fb : String)
    (c : CamExtractor) (frame : Image) (resp : ExplainResponse)
    (hc : st.camExtractor? = some c) (hf : decodeFrame codec fb = some frame)
    (hr : explain st codec fb = Except.ok resp) :
    resp.heatmap.width = frame.width ∧
    resp.heatmap.height = frame.height ∧
    imdecodeJpg resp.heatmap =
      some { width := frame.width, height := frame.height, channels := 3 } ∧
    (mobilenetInput frame).width = 224 ∧ (mobilenetInput frame).height = 224 ∧
    resp.heatmap = imencodeJpg (cvtColor (showCamOnImage (toFloat01 (cvtColor frame))
      (cvResize (c.extract (mobilenetInput frame)) frame.width frame.height))) := by
  rw [explain_ok_inv st codec fb c frame hc hf] at hr
  injection hr with h
  subst h
  exact ⟨rfl, rfl, rfl, rfl, rfl, rfl⟩

/-- C7 witness: the heatmap of the concrete 100×80 frame is 100×80. -/
theorem explain_heatmap_dims_witness :
    ({ heatmap := { width := 100, height := 80 } } : ExplainResponse).heatmap.width =
      frameS.width ∧
    ({ heatmap := { width := 100, height := 80 } } : ExplainResponse).heatmap.height =
      frameS.height ∧
    imdecodeJpg ({ heatmap := { width := 100, height := 80 } } : ExplainResponse).heatmap =
      some { width := frameS.width, height := frameS.height, channels := 3 } ∧
    (mobilenetInput frameS).width = 224 ∧ (mobilenetInput frameS).height = 224 ∧
    ({ heatmap := { width := 100, height := 80 } } : ExplainResponse).heatmap =
      imencodeJpg (cvtColor (showCamOnImage (toFloat01 (cvtColor frameS))
        (cvResize (camS.extract (mobilenetInput frameS)) frameS.width frameS.height))) :=
  explain_heatmap_dims stS codecS "good" camS frameS
    { heatmap := { width := 100, height := 80 } }
    rfl (by simp [decodeFrame, codecS]) rfl

/-- C8: the serialized track id is the -1 sentinel exactly when the
tracker produced no id for the box, and non-negative otherwise (the
tracker's ids being non-negative); the class name is resolved via the
class-id→name table, with "class_{id}" synthesized for unknown ids
instead of failing. -/
theorem detect_track_id_and_class_name (st : ServerState) (codec : Codec) (fb : String)
    (conf iou : ℚ) (imgsz : Nat) (m : YOLOModel) (frame : Image)
    (raw : List RawDet) (d : RawDet) (i : Nat) (resp : DetectResponse)
    (hm : st.model? = some m) (hf : decodeFrame codec fb = some frame)
    (ht : m.track frame conf iou imgsz = some raw) (hd : raw[i]? = some d)
    (hnn : ∀ t, d.id? = some t → 0 ≤ t)
    (hr : detect st codec fb conf iou imgsz = Except.ok resp) :
    ∃ det, resp.detections[i]? = some det ∧
      (det.track_id = -1 ∨ 0 ≤ det.track_id) ∧
      (det.track_id = -1 ↔ d.id? = none) ∧
      det.class_name = (match namesGet m.names d.cls with
        | some n => n
        | none => "class_" ++ toString d.cls) := by
  rw [detect_ok_inv st codec fb conf iou imgsz m frame hm hf] at hr
  injection hr with hresp
  subst hresp
  refine ⟨serializeDet m.names frame.width frame.height d, ?_, ?_⟩
  · simp only [parseResults_fst, ht, Option.getD_some, List.getElem?_map, hd,
      Option.map_some']
  · cases hid : d.id? with
    | none =>
      have htr : (serializeDet m.names frame.width frame.height d).track_id = -1 := by
        simp [serializeDet, hid]
      exact ⟨Or.inl htr, ⟨fun _ => rfl, fun _ => htr⟩, rfl⟩
    | some t =>
      have htr : (serializeDet m.names frame.width frame.height d).track_id = t := by
        simp [serializeDet, hid]
      have hte : 0 ≤ t := hnn t hid
      refine ⟨Or.inr (by rw [htr]; exact hte), ⟨fun hteq => ?_, fun hnone => ?_⟩, rfl⟩
      · rw [htr] at hteq
        omega
      · exact Option.noConfusion hnone

/-- C8 witness: the concrete detection with no tracker id and an
unknown class id serializes to the -1 sentinel and "class_7". -/
theorem detect_track_id_and_class_name_witness :
    ∃ det, respS.detections[1]? = some det ∧
      (det.track_id = -1 ∨ 0 ≤ det.track_id) ∧
      (det.track_id = -1 ↔ rawDet1.id? = none) ∧
      det.class_name = (match namesGet yoloS.names rawDet1.cls with
        | some n => n
        | none => "class_" ++ toString rawDet1.cls) :=
  detect_track_id_and_class_name stS codecS "good" (2 / 5) (1 / 2) 640 yoloS frameS rawS
    rawDet1 1 respS rfl (by simp [decodeFrame, codecS]) rfl rfl
    (fun t ht => Option.noConfusion ht) detect_stS_eval

/-- C9: every detect or explain call answers either an error or a full
response, never both; and a decoded frame with no detections yields a
success with an empty detections list, vehicle_count 0 and an empty
count_by_class, not an error. -/
theorem all_or_nothing_responses :
    (∀ st codec fb (conf iou : ℚ) imgsz,
      Xor' (∃ e, detect st codec fb conf iou imgsz = Except.error e)
        (∃ r, detect st codec fb conf iou imgsz = Except.ok r)) ∧
    (∀ st codec fb,
      Xor' (∃ e, explain st codec fb = Except.error e)
        (∃ r, explain st codec fb = Except.ok r)) ∧
    (∀ st codec fb (conf iou : ℚ) imgsz m frame,
      st.model? = some m → decodeFrame codec fb = some frame →
      (m.track frame conf iou imgsz = none ∨ m.track frame conf iou imgsz = some []) →
      detect st codec fb conf iou imgsz = Except.ok
        { detections := [], vehicle_count := 0, count_by_class := []
          frame_width := frame.width, frame_height := frame.height
          tracker := "botsort" }) := by
  refine ⟨fun st codec fb conf iou imgsz => except_error_or_ok _,
    fun st codec fb => except_error_or_ok _, ?_⟩
  intro st codec fb conf iou imgsz m frame hm hf hempty
  rw [detect_ok_inv st codec fb conf iou imgsz m frame hm hf]
  rcases hempty with he | he <;> rw [he] <;> rfl

/-- C9 witness: a run whose tracker reports no boxes answers the empty
success response. -/
theorem all_or_nothing_responses_witness :
    detect stE codecS "good" (2 / 5) (1 / 2) 640 = Except.ok
      { detections := [], vehicle_count := 0, count_by_class := []
        frame_width := 100, frame_height := 80, tracker := "botsort" } :=
  all_or_nothing_responses.2.2 stE codecS "good" (2 / 5) (1 / 2) 640 yoloE frameS rfl
    (by simp [decodeFrame, codecS]) (Or.inr rfl)

/-- C10: explain's availability check tests only the Grad-CAM extractor
handle: it answers 503 exactly when `cam_extractor` is `None`,
independently of the detector; in particular after shutdown (which only
clears `model`), health reports model_loaded = false and detect answers
503, yet explain still accepts requests. -/
theorem explain_availability_cam_only :
    (∀ st codec fb,
      (∃ e, explain st codec fb = Except.error e ∧ e.status = 503) ↔
        st.camExtractor? = none) ∧
    (∀ (m : YOLOModel) (em : ExplainModel) (c : CamExtractor) (codec : Codec)
        (fb fb2 : String) (conf iou : ℚ) (imgsz : Nat),
      (health (shutdown (startup m em c))).model_loaded = false ∧
      detect (shutdown (startup m em c)) codec fb conf iou imgsz =
        Except.error { status := 503, detail := "Model not loaded" } ∧
      ¬ (∃ e, explain (shutdown (startup m em c)) codec fb2 = Except.error e ∧
          e.status = 503)) := by
  have hiff : ∀ st codec fb,
      (∃ e, explain st codec fb = Except.error e ∧ e.status = 503) ↔
        st.camExtractor? = none := by
    intro st codec fb
    constructor
    · rintro ⟨e, he, hs⟩
      cases hc : st.camExtractor? with
      | none => rfl
      | some c =>
        exfalso
        cases hf : decodeFrame codec fb with
        | none =>
          unfold explain at he
          rw [hc, hf] at he
          injection he with hcontr
          subst hcontr
          exact absurd hs (by decide)
        | some frame =>
          rw [explain_ok_inv st codec fb c frame hc hf] at he
          exact Except.noConfusion he
    · intro hc
      exact ⟨{ status := 503, detail := "Explainability model not loaded" },
        by unfold explain; rw [hc], rfl⟩
  refine ⟨hiff, ?_⟩
  intro m em c codec fb fb2 conf iou imgsz
  refine ⟨rfl, rfl, ?_⟩
  intro hex
  have hnone := (hiff (shutdown (startup m em c)) codec fb2).mp hex
  exact Option.noConfusion hnone

/-- C10 witness: the post-shutdown asymmetry at a concrete state. -/
theorem explain_availability_cam_only_witness :
    (health (shutdown (startup yoloE { tag := 2 } camS))).model_loaded = false ∧
    detect (shutdown (startup yoloE { tag := 2 } camS)) codecS "good" (2 / 5) (1 / 2) 640 =
      Except.error { status := 503, detail := "Model not loaded" } ∧
    ¬ (∃ e, explain (shutdown (startup yoloE { tag := 2 } camS)) codecS "good" =
        Except.error e ∧ e.status = 503) :=
  explain_availability_cam_only.2 yoloE { tag := 2 } camS codecS "good" "good"
    (2 / 5) (1 / 2) 640
